import Mathlib

/-!
Shallow embedding of the janitor subsystem (`src/janitor/janitor.py`) of the
xcommand-n8n-rental repository, together with proofs about the claims made in
the natural-language specification of the sweep engine, the label extractor,
the teardown executor and the backup-notifier client.

External collaborators (the container runtime, the Postgres registry, the
backup webhook, and the Python standard library `datetime.fromisoformat`) are
modelled as oracles supplied to the pure functions; every reachable effect of
the code is recorded in an explicit trace, so that claims about *which* side
effects happen (and how often) become statements about traces.  Exceptions
raised by an external call and caught by the Python code change only the log
output, never the control flow or the trace; they are therefore absorbed into
the oracle outcomes.
-/

namespace Janitor

/-- A Python `datetime` restricted to what the janitor manipulates: a
timezone-aware UTC timestamp, field for field.  `datetime.fromisoformat(...)
.replace(tzinfo=timezone.utc)` keeps the parsed wall-clock fields and stamps
them as UTC, so the fields themselves are the UTC instant. -/
structure PyDatetime where
  year : Nat
  month : Nat
  day : Nat
  hour : Nat
  minute : Nat
  second : Nat
  microsecond : Nat
deriving DecidableEq, Repr

/-- Days from civil date to the 1970-01-01 epoch (Howard Hinnant's
`days_from_civil`), used to give meaning to Python's subtraction of two
aware datetimes. -/
def daysFromCivil (y0 : Nat) (m d : Nat) : Int :=
  let y : Int := if m ≤ 2 then (y0 : Int) - 1 else (y0 : Int)
  let era : Int := (if 0 ≤ y then y else y - 399) / 400
  let yoe : Int := y - era * 400
  let mp : Int := if 2 < m then (m : Int) - 3 else (m : Int) + 9
  let doy : Int := (153 * mp + 2) / 5 + (d : Int) - 1
  let doe : Int := yoe * 365 + yoe / 4 - yoe / 100 + doy
  era * 146097 + doe - 719468

/-- The UTC instant of a `PyDatetime`, in microseconds since the epoch
(Python datetimes have microsecond resolution). -/
def toEpochMicro (d : PyDatetime) : Int :=
  ((daysFromCivil d.year d.month d.day) * 86400
    + (d.hour : Int) * 3600 + (d.minute : Int) * 60 + (d.second : Int)) * 1000000
    + (d.microsecond : Int)

/-- `(exp - now_utc).total_seconds() / 60.0` from `sweep_once`: the signed
number of minutes until expiry (exact rational arithmetic in place of the
Python float). -/
def delta_min (exp now : PyDatetime) : ℚ :=
  (((toEpochMicro exp - toEpochMicro now : Int) : ℚ) / 1000000) / 60

/-- Python `dict.get(k)` on a label map (labels have unique keys; the model
uses the first binding). -/
def pyGet (labels : List (String × String)) (k : String) : Option String :=
  (labels.find? (fun p => p.1 = k)).map (fun p => p.2)

/-- Python `a or b` on two optional strings: `a` unless `a` is falsy
(`None` or the empty string). -/
def pyOrS : Option String → Option String → Option String
  | none, b => b
  | some s, b => if s = "" then b else some s

/-- Python `s.startswith(pre)` (character-list based, so that concrete
instances evaluate inside the kernel). -/
def pyStartsWith (s pre : String) : Bool :=
  pre.data.isPrefixOf s.data

/-- Python `s[n:]` on character counts. -/
def pyDrop (s : String) (n : Nat) : String :=
  ⟨s.data.drop n⟩

/-- Python `s.rstrip("Z")`: remove every trailing `'Z'`. -/
def rstripZ (s : String) : String :=
  ⟨(s.data.reverse.dropWhile (fun c => c = 'Z')).reverse⟩

/-- `parse_iso` from `janitor.py`: empty string is falsy and yields `None`;
otherwise strip trailing `Z`s and hand the rest to `datetime.fromisoformat`
(modelled by the oracle `fromiso`, whose `none` stands for the exception the
`except` clause turns into `None`); `.replace(tzinfo=timezone.utc)` stamps
the parsed fields as UTC, which the `PyDatetime` model already does. -/
def parse_iso (fromiso : String → Option PyDatetime) (s : String) : Option PyDatetime :=
  if s = "" then none
  else fromiso (rstripZ s)

/-- `sub_from_container` from `janitor.py`: `name.split("n8n_", 1)[1]` when
the name starts with `"n8n_"` (the first occurrence is the prefix, so this is
the name with the first four characters dropped), the name itself otherwise. -/
def sub_from_container (name : String) : String :=
  if pyStartsWith name "n8n_" then pyDrop name 4 else name

/-- `volume_name_for` from `janitor.py`. -/
def volume_name_for (sub : String) : String :=
  "n8n_" ++ sub ++ "_data"

/-- `is_workspace` from `janitor.py`: the ownership flag read from the new
label key, falling back to the old key when the new one is falsy; true when
that flag equals `"true"` or when the name starts with `"n8n_u-"`. -/
def is_workspace (labels : List (String × String)) (name : String) : Bool :=
  let flag := pyOrS (pyGet labels "xcommand.workspace") (pyGet labels "com.xcommand.workspace")
  if flag = some "true" then true
  else if pyStartsWith name "n8n_u-" then true
  else false

/-- `get_subdomain` from `janitor.py`: new label key, else old label key,
else derive from the container name (Python `or` chains skip falsy values). -/
def get_subdomain (labels : List (String × String)) (name : String) : String :=
  match pyOrS (pyGet labels "xcommand.subdomain") (pyGet labels "com.xcommand.sub") with
  | some s => if s = "" then sub_from_container name else s
  | none => sub_from_container name

/-- `get_expiry` from `janitor.py`: the expiry label from either key
generation (falsy values fall through to `""`), parsed by `parse_iso`. -/
def get_expiry (fromiso : String → Option PyDatetime)
    (labels : List (String × String)) : Option PyDatetime :=
  let lbl := match pyOrS (pyGet labels "xcommand.expires_at") (pyGet labels "com.xcommand.expires_at") with
             | some s => s
             | none => ""
  parse_iso fromiso lbl

/-- A decimal digit character. -/
def digitChar (n : Nat) : Char := Char.ofNat (48 + n % 10)

/-- Decimal digits of a natural number, most significant first (fuel-driven
model of the rendering behind Python's `%d`). -/
def natDigitsAux : Nat → Nat → List Char
  | 0, _ => []
  | fuel + 1, n => if n < 10 then [digitChar n] else natDigitsAux fuel (n / 10) ++ [digitChar (n % 10)]

/-- Python's `"%0wd" % n`: the decimal digits of `n`, left-padded with `'0'`
to width `w` (never truncated). -/
def padZero (w : Nat) (n : Nat) : String :=
  ⟨List.replicate (w - (natDigitsAux (n + 1) n).length) '0' ++ natDigitsAux (n + 1) n⟩

/-- The characters of the date-time part of `datetime.isoformat()`:
`YYYY-MM-DDTHH:MM:SS`, with the fractional-seconds block appearing only
when the microsecond field is nonzero. -/
def isoCoreChars (d : PyDatetime) : List Char :=
  (padZero 4 d.year).data ++ ['-'] ++ (padZero 2 d.month).data ++ ['-'] ++
  (padZero 2 d.day).data ++ ['T'] ++ (padZero 2 d.hour).data ++ [':'] ++
  (padZero 2 d.minute).data ++ [':'] ++ (padZero 2 d.second).data ++
  (if d.microsecond = 0 then [] else '.' :: (padZero 6 d.microsecond).data)

/-- The date-time part of `datetime.isoformat()` as a string. -/
def isoCore (d : PyDatetime) : String := ⟨isoCoreChars d⟩

/-- `datetime.isoformat()` on a UTC-aware datetime: the date-time part
followed by the UTC offset rendered as `"+00:00"`. -/
def pyIsoformatAware (d : PyDatetime) : String :=
  isoCore d ++ "+00:00"

/-- Python `str.replace(old, new)` on character lists: replace every
leftmost non-overlapping occurrence of `old` (fuel-driven; each step consumes
at least one character, so `fuel = length` suffices). -/
def pyReplaceAux : Nat → List Char → List Char → List Char → List Char
  | 0, s, _, _ => s
  | _ + 1, [], _, _ => []
  | fuel + 1, c :: cs, old, new =>
    if old ≠ [] ∧ old.isPrefixOf (c :: cs) then
      new ++ pyReplaceAux fuel (List.drop old.length (c :: cs)) old new
    else c :: pyReplaceAux fuel cs old new

/-- Python `s.replace(old, new)`. -/
def pyReplace (s old new : String) : String :=
  ⟨pyReplaceAux s.data.length s.data old.data new.data⟩

/-- A JSON value as decoded by `resp.json()` into a Python object. -/
inductive PyVal where
  | pnull : PyVal
  | pbool : Bool → PyVal
  | pint : Int → PyVal
  | pstr : String → PyVal
  | plist : List PyVal → PyVal
  | pdict : List (String × PyVal) → PyVal

/-- Python `dict.get(k)` on a decoded JSON object. -/
def dictGet : List (String × PyVal) → String → Option PyVal
  | [], _ => none
  | (k, v) :: rest, key => if k = key then some v else dictGet rest key

/-- The success test of `trigger_backup` on the decoded body, split off:
`data.get("ok") is True` holds only for the boolean object `True`, which
the `PyVal.pbool true` constructor models (`data = None`, standing for a
body that `resp.json()` rejected, fails the test). -/
def okField : Option PyVal → Bool
  | some (PyVal.pbool b) => b
  | _ => false

/-- `isinstance(data, dict) and data.get("ok") is True`. -/
def okIsTrue : Option PyVal → Bool
  | some (PyVal.pdict xs) => okField (dictGet xs "ok")
  | _ => false

/-- Outcome of `requests.post`: either an exception (network error, timeout)
or a response with an HTTP status and a decoded JSON body (`none` when the
body is not JSON and `resp.json()` raised). -/
inductive HttpOutcome where
  | exc : HttpOutcome
  | resp : Nat → Option PyVal → HttpOutcome

/-- Python truthiness of `os.getenv(...)`: `None` and `""` are falsy. -/
def pyTruthyStr : Option String → Option String
  | none => none
  | some s => if s = "" then none else some s

/-- A container as the runtime reports it: name plus label map
(`c.labels or {}` turns a missing map into the empty one, which the list
model already represents). -/
structure Container where
  name : String
  labels : List (String × String)
deriving DecidableEq, Repr

/-- A registry row as `get_workspace_info` returns it:
`{"email": ..., "backup_sent_at": ...}`. -/
structure WorkspaceInfo where
  email : String
  backup_sent_at : Option PyDatetime
deriving DecidableEq, Repr

/-- One observable side effect of a sweep.  Effects record *attempts*: a
call that the external system answers with an exception is still an attempt,
and the Python code catches the exception and only logs it. -/
inductive Effect where
  | removeContainer : String → Effect
  | volumeLookup : String → Effect
  | removeVolume : String → Effect
  | deleteRow : String → Effect
  | webhookPost : List (String × String) → Effect
  | markBackupSent : String → Effect
deriving DecidableEq, Repr

/-- The oracles for the external world: the webhook URL environment
variable, the HTTP response for a given POST payload, the registry row per
subdomain (`none` covers both a missing row and a failed lookup, exactly as
`get_workspace_info` reports them), and whether `client.volumes.get`
succeeds for a volume name (an absent volume raises, which the code
catches, skipping the `v.remove` call). -/
structure Env where
  url : Option String
  http : List (String × String) → HttpOutcome
  db : String → Option WorkspaceInfo
  volumeGetOk : String → Bool

/-- The JSON payload `trigger_backup` builds (a dict of three string
fields; `exp.isoformat().replace("+00:00", "Z")` renders the expiry). -/
def backupPayload (sub email : String) (exp : PyDatetime) : List (String × String) :=
  [("workspace_subdomain", sub),
   ("user_email", email),
   ("expires_at", pyReplace (pyIsoformatAware exp) "+00:00" "Z")]

/-- `trigger_backup` from `janitor.py`: no-op failure when the URL is not
configured; otherwise one POST, succeeding exactly when the status is 200
and the decoded body is a dict whose `"ok"` is the boolean `True`.  Every
exception is caught and turns into `False`. -/
def trigger_backup (env : Env) (sub email : String) (exp : PyDatetime) :
    Bool × List Effect :=
  match pyTruthyStr env.url with
  | none => (false, [])
  | some _ =>
    match env.http (backupPayload sub email exp) with
    | HttpOutcome.exc => (false, [Effect.webhookPost (backupPayload sub email exp)])
    | HttpOutcome.resp status body =>
        (decide (status = 200) && okIsTrue body,
         [Effect.webhookPost (backupPayload sub email exp)])

/-- `stop_and_wipe` from `janitor.py`: force-remove the container, then try
`client.volumes.get` / `v.remove` on the derived volume name, then delete
the registry row — each step in its own `try`/`except`, so a failure of one
never suppresses the later attempts. -/
def stop_and_wipe (env : Env) (c : Container) : List Effect :=
  [Effect.removeContainer c.name]
    ++ (if env.volumeGetOk (volume_name_for (get_subdomain c.labels c.name)) then
          [Effect.volumeLookup (volume_name_for (get_subdomain c.labels c.name)),
           Effect.removeVolume (volume_name_for (get_subdomain c.labels c.name))]
        else [Effect.volumeLookup (volume_name_for (get_subdomain c.labels c.name))])
    ++ [Effect.deleteRow (get_subdomain c.labels c.name)]

/-- What processing one container contributes to the cycle: the `with_sub`
and `expired` counter increments and the emitted effects. -/
structure ProcResult where
  withSub : Bool
  expired : Bool
  effects : List Effect
deriving DecidableEq, Repr

/-- The per-container body of the `for` loop in `sweep_once`. -/
def processContainer (fromiso : String → Option PyDatetime) (env : Env)
    (now : PyDatetime) (c : Container) : ProcResult :=
  if is_workspace c.labels c.name then
    if get_subdomain c.labels c.name = "" then ⟨false, false, []⟩
    else
      match get_expiry fromiso c.labels with
      | none => ⟨true, false, []⟩
      | some exp =>
        if delta_min exp now ≤ 0 then ⟨true, true, stop_and_wipe env c⟩
        else if delta_min exp now ≤ 10 then
          match env.db (get_subdomain c.labels c.name) with
          | none => ⟨true, false, []⟩
          | some info =>
            match info.backup_sent_at with
            | some _ => ⟨true, false, []⟩
            | none =>
              ⟨true, false,
               (trigger_backup env (get_subdomain c.labels c.name) info.email exp).snd
                 ++ (if (trigger_backup env (get_subdomain c.labels c.name) info.email exp).fst
                     then [Effect.markBackupSent (get_subdomain c.labels c.name)] else [])⟩
        else ⟨true, false, []⟩
  else ⟨false, false, []⟩

/-- The counters and effect trace of one sweep cycle. -/
structure SweepResult where
  total : Nat
  withSub : Nat
  expired : Nat
  trace : List Effect
deriving DecidableEq, Repr

/-- `sweep_once` from `janitor.py` over the container inventory the runtime
returned for `client.containers.list(all=True)`. -/
def sweep_once (fromiso : String → Option PyDatetime) (env : Env)
    (now : PyDatetime) : List Container → SweepResult
  | [] => ⟨0, 0, 0, []⟩
  | c :: cs =>
    let r := processContainer fromiso env now c
    let rest := sweep_once fromiso env now cs
    ⟨rest.total + 1,
     (if r.withSub then 1 else 0) + rest.withSub,
     (if r.expired then 1 else 0) + rest.expired,
     r.effects ++ rest.trace⟩

/-- Number of effects in a trace satisfying `p`. -/
def countEff (p : Effect → Bool) (tr : List Effect) : Nat :=
  (tr.filter p).length

/-- Recognizer for container-removal attempts. -/
def isRemoveContainerE : Effect → Bool
  | Effect.removeContainer _ => true
  | _ => false

/-- Recognizer for volume-lookup attempts (the entry into the volume-wipe
step). -/
def isVolumeLookupE : Effect → Bool
  | Effect.volumeLookup _ => true
  | _ => false

/-- Recognizer for volume-removal calls. -/
def isRemoveVolumeE : Effect → Bool
  | Effect.removeVolume _ => true
  | _ => false

/-- Recognizer for registry-row deletions. -/
def isDeleteRowE : Effect → Bool
  | Effect.deleteRow _ => true
  | _ => false

/-- Recognizer for webhook POSTs. -/
def isWebhookPostE : Effect → Bool
  | Effect.webhookPost _ => true
  | _ => false

/-- Recognizer for `mark_backup_sent` calls. -/
def isMarkBackupSentE : Effect → Bool
  | Effect.markBackupSent _ => true
  | _ => false

/-! ### Spec-side definitions (for refinement-style claims) -/

/-- Modelled from the spec: the claimed ownership test for claim C6 — an
explicit boolean-true ownership label present under either the new key or
the old key, or the fixed name pattern. -/
def claimedWorkspaceSignal (labels : List (String × String)) (name : String) : Prop :=
  pyGet labels "xcommand.workspace" = some "true" ∨
  pyGet labels "com.xcommand.workspace" = some "true" ∨
  pyStartsWith name "n8n_u-" = true

/-- Modelled from the spec (amended for claim C7): the expiry rendered as
UTC with a trailing `Z`, the fractional-seconds block present exactly when
the expiry's microsecond field is nonzero. -/
def specExpiresAtString (d : PyDatetime) : String :=
  isoCore d ++ "Z"

/-! ### Concrete fixtures (for witnesses and counterexamples) -/

/-- A concrete `datetime.fromisoformat` oracle knowing the one timestamp
the fixture labels carry. -/
def fixFromiso : String → Option PyDatetime := fun s =>
  if s = "2025-01-01T00:10:00" then some ⟨2025, 1, 1, 0, 10, 0, 0⟩ else none

/-- The expiry instant the fixture labels denote. -/
def fixExp : PyDatetime := ⟨2025, 1, 1, 0, 10, 0, 0⟩

/-- A legacy-named workspace container whose expiry label carries a
trailing `Z`. -/
def fixContainer : Container :=
  ⟨"n8n_u-abc123", [("xcommand.expires_at", "2025-01-01T00:10:00Z")]⟩

/-- A sweep instant 5 minutes before the fixture expiry (inside the
10-minute backup window). -/
def fixNowWindow : PyDatetime := ⟨2025, 1, 1, 0, 5, 0, 0⟩

/-- A sweep instant 20 minutes after the fixture expiry. -/
def fixNowExpired : PyDatetime := ⟨2025, 1, 1, 0, 30, 0, 0⟩

/-- A world where the registry row exists with a null `backup_sent_at`, the
webhook answers `200 {"ok": true}`, and the volume lookup succeeds. -/
def fixEnvOkBackup : Env :=
  ⟨some "http://backup.example/hook",
   fun _ => HttpOutcome.resp 200 (some (PyVal.pdict [("ok", PyVal.pbool true)])),
   fun s => if s = "u-abc123" then some ⟨"user@example.com", none⟩ else none,
   fun _ => true⟩

/-- The same world after `backup_sent_at` has been recorded. -/
def fixEnvSent : Env :=
  ⟨some "http://backup.example/hook",
   fun _ => HttpOutcome.resp 200 (some (PyVal.pdict [("ok", PyVal.pbool true)])),
   fun s => if s = "u-abc123" then some ⟨"user@example.com", some ⟨2025, 1, 1, 0, 5, 0, 123⟩⟩ else none,
   fun _ => true⟩

/-- A world with no registry row at all (or a failing lookup, reported the
same way). -/
def fixEnvNoRow : Env :=
  ⟨some "http://backup.example/hook",
   fun _ => HttpOutcome.resp 200 (some (PyVal.pdict [("ok", PyVal.pbool true)])),
   fun _ => none,
   fun _ => false⟩

/-- A world with a configured webhook endpoint whose calls time out. -/
def fixEnvHookOnly : Env :=
  ⟨some "http://backup.example/hook",
   fun _ => HttpOutcome.exc,
   fun _ => none,
   fun _ => false⟩

/-- A pathological container: owned by explicit flag, expired, but named
bare `"n8n_"` so that the derived subdomain is empty. -/
def fixPathological : Container :=
  ⟨"n8n_", [("xcommand.workspace", "true"), ("xcommand.expires_at", "2025-01-01T00:10:00Z")]⟩

/-- The same pathological name with no expiry label at all. -/
def fixPathNoExpiry : Container :=
  ⟨"n8n_", [("xcommand.workspace", "true")]⟩

/-! ### Groundwork lemmas -/

/-- The expired test `delta_min exp now <= 0` is exactly `expires_at - now <= 0`
on the microsecond timeline. -/
lemma delta_min_nonpos_iff (exp now : PyDatetime) :
    delta_min exp now ≤ 0 ↔ toEpochMicro exp - toEpochMicro now ≤ 0 := by
  unfold delta_min
  rw [div_div, div_le_iff₀ (by norm_num : (0 : ℚ) < 1000000 * 60)]
  norm_num

/-- The backup-window test `delta_min exp now <= 10` is exactly
`expires_at - now <= 10 minutes` (600 000 000 microseconds). -/
lemma delta_min_le_ten_iff (exp now : PyDatetime) :
    delta_min exp now ≤ 10 ↔ toEpochMicro exp - toEpochMicro now ≤ 600000000 := by
  unfold delta_min
  rw [div_div, div_le_iff₀ (by norm_num : (0 : ℚ) < 1000000 * 60)]
  norm_num
  exact_mod_cast Iff.rfl

/-- Appending one `'Z'` and then right-stripping `'Z'`s is the same as
right-stripping the original. -/
lemma rstripZ_append_Z (s : String) : rstripZ (s ++ "Z") = rstripZ s := by
  unfold rstripZ
  have hdata : (s ++ "Z").data = s.data ++ ['Z'] := by
    cases s with
    | mk l => rfl
  rw [hdata, List.reverse_append]
  simp [List.dropWhile]

/-- A string with `"Z"` appended is never empty. -/
lemma append_Z_ne_empty (s : String) : s ++ "Z" ≠ "" := by
  intro h
  have : (s ++ "Z").data = ([] : List Char) := by rw [h]
  have hdata : (s ++ "Z").data = s.data ++ ['Z'] := by
    cases s with
    | mk l => rfl
  rw [hdata] at this
  simpa using congrArg List.length this

/-- The `total` counter counts every container the runtime listed. -/
lemma sweep_once_total (fromiso : String → Option PyDatetime) (env : Env)
    (now : PyDatetime) (cs : List Container) :
    (sweep_once fromiso env now cs).total = cs.length := by
  induction cs with
  | nil => rfl
  | cons c cs ih => simp [sweep_once, ih]

/-- The cycle trace is the concatenation of the per-container traces. -/
lemma sweep_once_trace_append (fromiso : String → Option PyDatetime) (env : Env)
    (now : PyDatetime) (l1 l2 : List Container) :
    (sweep_once fromiso env now (l1 ++ l2)).trace =
      (sweep_once fromiso env now l1).trace ++ (sweep_once fromiso env now l2).trace := by
  induction l1 with
  | nil => rfl
  | cons c l1 ih => simp [sweep_once, ih]

/-- The trace of a singleton sweep is that container's effects. -/
lemma sweep_once_trace_singleton (fromiso : String → Option PyDatetime) (env : Env)
    (now : PyDatetime) (c : Container) :
    (sweep_once fromiso env now [c]).trace = (processContainer fromiso env now c).effects := by
  simp [sweep_once]

/-- A successful `trigger_backup` made exactly the one POST with the built
payload. -/
lemma trigger_backup_fst_true (env : Env) (sub email : String) (exp : PyDatetime)
    (h : (trigger_backup env sub email exp).fst = true) :
    (trigger_backup env sub email exp).snd = [Effect.webhookPost (backupPayload sub email exp)] := by
  unfold trigger_backup at h ⊢
  cases hu : pyTruthyStr env.url with
  | none => simp [hu] at h
  | some u =>
    simp only [hu] at h ⊢
    cases hh : env.http (backupPayload sub email exp) with
    | exc => simp [hh] at h
    | resp status body => simp [hh]

/-- Whatever the oracle answers, `trigger_backup` emits at most the one
POST effect, and nothing else. -/
lemma trigger_backup_snd_cases (env : Env) (sub email : String) (exp : PyDatetime) :
    (trigger_backup env sub email exp).snd = [] ∨
    (trigger_backup env sub email exp).snd = [Effect.webhookPost (backupPayload sub email exp)] := by
  unfold trigger_backup
  cases pyTruthyStr env.url with
  | none => left; rfl
  | some u =>
    cases env.http (backupPayload sub email exp) with
    | exc => right; rfl
    | resp status body => right; rfl

/-- The teardown trace contains no webhook POST and no `mark_backup_sent`. -/
lemma stop_and_wipe_no_backup (env : Env) (c : Container) :
    countEff isWebhookPostE (stop_and_wipe env c) = 0 ∧
    countEff isMarkBackupSentE (stop_and_wipe env c) = 0 := by
  unfold stop_and_wipe countEff
  by_cases h : env.volumeGetOk (volume_name_for (get_subdomain c.labels c.name)) <;>
    simp [h, isWebhookPostE, isMarkBackupSentE]

/-- The teardown trace attempts the container removal exactly once. -/
lemma stop_and_wipe_count_rc (env : Env) (c : Container) :
    countEff isRemoveContainerE (stop_and_wipe env c) = 1 := by
  unfold stop_and_wipe countEff
  by_cases h : env.volumeGetOk (volume_name_for (get_subdomain c.labels c.name)) <;>
    simp [h, isRemoveContainerE]

/-- Expired branch of the loop body: counted as expired, teardown dispatched. -/
lemma processContainer_expired (fromiso : String → Option PyDatetime) (env : Env)
    (now : PyDatetime) (c : Container) (exp : PyDatetime)
    (hw : is_workspace c.labels c.name = true)
    (hs : get_subdomain c.labels c.name ≠ "")
    (he : get_expiry fromiso c.labels = some exp)
    (hdm : delta_min exp now ≤ 0) :
    processContainer fromiso env now c = ⟨true, true, stop_and_wipe env c⟩ := by
  simp [processContainer, hw, hs, he, hdm]

/-- No-expiry branch of the loop body: skipped after the `with_sub` count. -/
lemma processContainer_no_expiry (fromiso : String → Option PyDatetime) (env : Env)
    (now : PyDatetime) (c : Container)
    (hw : is_workspace c.labels c.name = true)
    (hs : get_subdomain c.labels c.name ≠ "")
    (he : get_expiry fromiso c.labels = none) :
    processContainer fromiso env now c = ⟨true, false, []⟩ := by
  simp [processContainer, hw, hs, he]

/-- Backup-window branch with no registry row: nothing happens. -/
lemma processContainer_window_no_row (fromiso : String → Option PyDatetime) (env : Env)
    (now : PyDatetime) (c : Container) (exp : PyDatetime)
    (hw : is_workspace c.labels c.name = true)
    (hs : get_subdomain c.labels c.name ≠ "")
    (he : get_expiry fromiso c.labels = some exp)
    (h0 : ¬ delta_min exp now ≤ 0)
    (h10 : delta_min exp now ≤ 10)
    (hdb : env.db (get_subdomain c.labels c.name) = none) :
    processContainer fromiso env now c = ⟨true, false, []⟩ := by
  simp [processContainer, hw, hs, he, h0, h10, hdb]

/-- Backup-window branch with `backup_sent_at` already set: no-op. -/
lemma processContainer_window_sent (fromiso : String → Option PyDatetime) (env : Env)
    (now : PyDatetime) (c : Container) (exp t : PyDatetime) (info : WorkspaceInfo)
    (hw : is_workspace c.labels c.name = true)
    (hs : get_subdomain c.labels c.name ≠ "")
    (he : get_expiry fromiso c.labels = some exp)
    (h0 : ¬ delta_min exp now ≤ 0)
    (h10 : delta_min exp now ≤ 10)
    (hdb : env.db (get_subdomain c.labels c.name) = some info)
    (hb : info.backup_sent_at = some t) :
    processContainer fromiso env now c = ⟨true, false, []⟩ := by
  simp [processContainer, hw, hs, he, h0, h10, hdb, hb]

/-- Backup-window branch with a null `backup_sent_at`: one `trigger_backup`
call, and `mark_backup_sent` exactly when it succeeded. -/
lemma processContainer_window_null (fromiso : String → Option PyDatetime) (env : Env)
    (now : PyDatetime) (c : Container) (exp : PyDatetime) (em : String)
    (hw : is_workspace c.labels c.name = true)
    (hs : get_subdomain c.labels c.name ≠ "")
    (he : get_expiry fromiso c.labels = some exp)
    (h0 : ¬ delta_min exp now ≤ 0)
    (h10 : delta_min exp now ≤ 10)
    (hdb : env.db (get_subdomain c.labels c.name) = some ⟨em, none⟩) :
    processContainer fromiso env now c =
      ⟨true, false,
       (trigger_backup env (get_subdomain c.labels c.name) em exp).snd ++
         (if (trigger_backup env (get_subdomain c.labels c.name) em exp).fst
          then [Effect.markBackupSent (get_subdomain c.labels c.name)] else [])⟩ := by
  simp [processContainer, hw, hs, he, h0, h10, hdb]

/-- Full case analysis of the loop body: every container either contributes
no effects, or is expired and torn down, or is in the backup window with a
null `backup_sent_at` and contributes the backup-notification effects. -/
lemma processContainer_cases (fromiso : String → Option PyDatetime) (env : Env)
    (now : PyDatetime) (c : Container) :
    (∃ b, processContainer fromiso env now c = ⟨b, false, []⟩) ∨
    (∃ exp, is_workspace c.labels c.name = true ∧ get_subdomain c.labels c.name ≠ "" ∧
       get_expiry fromiso c.labels = some exp ∧ delta_min exp now ≤ 0 ∧
       processContainer fromiso env now c = ⟨true, true, stop_and_wipe env c⟩) ∨
    (∃ exp em, is_workspace c.labels c.name = true ∧ get_subdomain c.labels c.name ≠ "" ∧
       get_expiry fromiso c.labels = some exp ∧ ¬ delta_min exp now ≤ 0 ∧
       delta_min exp now ≤ 10 ∧
       env.db (get_subdomain c.labels c.name) = some ⟨em, none⟩ ∧
       processContainer fromiso env now c =
         ⟨true, false,
          (trigger_backup env (get_subdomain c.labels c.name) em exp).snd ++
            (if (trigger_backup env (get_subdomain c.labels c.name) em exp).fst
             then [Effect.markBackupSent (get_subdomain c.labels c.name)] else [])⟩) := by
  by_cases hw : is_workspace c.labels c.name = true
  · by_cases hs : get_subdomain c.labels c.name = ""
    · exact Or.inl ⟨false, by simp [processContainer, hw, hs]⟩
    · cases he : get_expiry fromiso c.labels with
      | none => exact Or.inl ⟨true, processContainer_no_expiry fromiso env now c hw hs he⟩
      | some exp =>
        by_cases h0 : delta_min exp now ≤ 0
        · exact Or.inr (Or.inl ⟨exp, hw, hs, rfl, h0,
            processContainer_expired fromiso env now c exp hw hs he h0⟩)
        · by_cases h10 : delta_min exp now ≤ 10
          · cases hdb : env.db (get_subdomain c.labels c.name) with
            | none => exact Or.inl ⟨true,
                processContainer_window_no_row fromiso env now c exp hw hs he h0 h10 hdb⟩
            | some info =>
              cases hb : info.backup_sent_at with
              | some t => exact Or.inl ⟨true,
                  processContainer_window_sent fromiso env now c exp t info hw hs he h0 h10 hdb hb⟩
              | none =>
                have hinfo : info = ⟨info.email, none⟩ := by
                  cases info with
                  | mk em bs => simp at hb; simp [hb]
                refine Or.inr (Or.inr ⟨exp, info.email, hw, hs, rfl, h0, h10, ?_, ?_⟩)
                · rw [← hinfo]
                · exact processContainer_window_null fromiso env now c exp info.email hw hs he
                    h0 h10 (by rw [hdb, ← hinfo])
          · exact Or.inl ⟨true, by simp [processContainer, hw, hs, he, h0, h10]⟩
  · exact Or.inl ⟨false, by simp [processContainer, hw]⟩

/-- Effect counts add over concatenated traces. -/
lemma countEff_append (p : Effect → Bool) (a b : List Effect) :
    countEff p (a ++ b) = countEff p a + countEff p b := by
  simp [countEff, List.filter_append]

/-- The backup-notification effects contain no container removal. -/
lemma backup_effects_count_rc (env : Env) (sub em : String) (exp : PyDatetime) :
    countEff isRemoveContainerE
      ((trigger_backup env sub em exp).snd ++
        (if (trigger_backup env sub em exp).fst
         then [Effect.markBackupSent sub] else [])) = 0 := by
  rcases trigger_backup_snd_cases env sub em exp with h | h <;>
    rw [h] <;>
    by_cases hf : (trigger_backup env sub em exp).fst <;>
    simp [hf, countEff, isRemoveContainerE]

/-- One container contributes one container-removal attempt exactly when it
was counted as expired, and none otherwise. -/
lemma processContainer_count_rc (fromiso : String → Option PyDatetime) (env : Env)
    (now : PyDatetime) (c : Container) :
    countEff isRemoveContainerE (processContainer fromiso env now c).effects =
      (if (processContainer fromiso env now c).expired then 1 else 0) := by
  rcases processContainer_cases fromiso env now c with ⟨b, hp⟩ |
    ⟨exp, _, _, _, _, hp⟩ | ⟨exp, em, _, _, _, _, _, _, hp⟩
  · rw [hp]; simp [countEff]
  · rw [hp]; simpa using stop_and_wipe_count_rc env c
  · rw [hp]; simpa using backup_effects_count_rc env (get_subdomain c.labels c.name) em exp

/-- The `expired` counter equals the number of container-removal attempts in
the cycle trace. -/
lemma sweep_once_expired_eq_count (fromiso : String → Option PyDatetime) (env : Env)
    (now : PyDatetime) (cs : List Container) :
    (sweep_once fromiso env now cs).expired =
      countEff isRemoveContainerE (sweep_once fromiso env now cs).trace := by
  induction cs with
  | nil => rfl
  | cons c cs ih =>
    simp [sweep_once, countEff_append, processContainer_count_rc, ih]

/-- A registry-row deletion inside the teardown trace names the container's
derived subdomain. -/
lemma stop_and_wipe_deleteRow_mem (env : Env) (c : Container) (s : String)
    (h : Effect.deleteRow s ∈ stop_and_wipe env c) :
    s = get_subdomain c.labels c.name := by
  unfold stop_and_wipe at h
  by_cases hv : env.volumeGetOk (volume_name_for (get_subdomain c.labels c.name)) <;>
    simp [hv] at h <;> exact h

/-- No webhook POST occurs in a teardown trace. -/
lemma stop_and_wipe_no_webhook_mem (env : Env) (c : Container) (p : List (String × String)) :
    Effect.webhookPost p ∉ stop_and_wipe env c := by
  unfold stop_and_wipe
  by_cases hv : env.volumeGetOk (volume_name_for (get_subdomain c.labels c.name)) <;>
    simp [hv]

/-- No `mark_backup_sent` occurs in a teardown trace. -/
lemma stop_and_wipe_no_mark_mem (env : Env) (c : Container) (s : String) :
    Effect.markBackupSent s ∉ stop_and_wipe env c := by
  unfold stop_and_wipe
  by_cases hv : env.volumeGetOk (volume_name_for (get_subdomain c.labels c.name)) <;>
    simp [hv]

/-- No registry-row deletion occurs in the backup-notification effects. -/
lemma backup_effects_no_deleteRow (env : Env) (sub em : String) (exp : PyDatetime)
    (s : String) :
    Effect.deleteRow s ∉
      ((trigger_backup env sub em exp).snd ++
        (if (trigger_backup env sub em exp).fst
         then [Effect.markBackupSent sub] else [])) := by
  rcases trigger_backup_snd_cases env sub em exp with h | h <;>
    rw [h] <;>
    by_cases hf : (trigger_backup env sub em exp).fst <;>
    simp [hf]

/-- A webhook POST among the backup-notification effects carries the built
payload. -/
lemma backup_effects_webhook_mem (env : Env) (sub em : String) (exp : PyDatetime)
    (p : List (String × String))
    (h : Effect.webhookPost p ∈
      ((trigger_backup env sub em exp).snd ++
        (if (trigger_backup env sub em exp).fst
         then [Effect.markBackupSent sub] else []))) :
    p = backupPayload sub em exp := by
  rcases trigger_backup_snd_cases env sub em exp with hs | hs <;>
    rw [hs] at h <;>
    by_cases hf : (trigger_backup env sub em exp).fst <;>
    simp [hf] at h <;>
    simp [h]

/-- A `mark_backup_sent` among the backup-notification effects names the
subdomain and certifies that the webhook call succeeded. -/
lemma backup_effects_mark_mem (env : Env) (sub em : String) (exp : PyDatetime)
    (s : String)
    (h : Effect.markBackupSent s ∈
      ((trigger_backup env sub em exp).snd ++
        (if (trigger_backup env sub em exp).fst
         then [Effect.markBackupSent sub] else []))) :
    s = sub ∧ (trigger_backup env sub em exp).fst = true := by
  rcases trigger_backup_snd_cases env sub em exp with hs | hs <;>
    rw [hs] at h <;>
    by_cases hf : (trigger_backup env sub em exp).fst <;>
    simp [hf] at h <;> exact ⟨h, hf⟩

/-- The `with_sub` counter adds over concatenated inventories. -/
lemma sweep_once_withSub_append (fromiso : String → Option PyDatetime) (env : Env)
    (now : PyDatetime) (l1 l2 : List Container) :
    (sweep_once fromiso env now (l1 ++ l2)).withSub =
      (sweep_once fromiso env now l1).withSub + (sweep_once fromiso env now l2).withSub := by
  induction l1 with
  | nil => simp [sweep_once]
  | cons c l1 ih => simp [sweep_once, ih]; omega

/-- The `expired` counter adds over concatenated inventories. -/
lemma sweep_once_expired_append (fromiso : String → Option PyDatetime) (env : Env)
    (now : PyDatetime) (l1 l2 : List Container) :
    (sweep_once fromiso env now (l1 ++ l2)).expired =
      (sweep_once fromiso env now l1).expired + (sweep_once fromiso env now l2).expired := by
  induction l1 with
  | nil => simp [sweep_once]
  | cons c l1 ih => simp [sweep_once, ih]; omega

/-- Any registry-row deletion in a cycle trace originates from the teardown
of a listed container that was workspace-owned, had a nonempty subdomain and
a resolvable expiry, and was already expired; the deleted row is that
container's derived subdomain. -/
lemma sweep_deleteRow_origin (fromiso : String → Option PyDatetime) (env : Env)
    (now : PyDatetime) (cs : List Container) (s : String)
    (h : Effect.deleteRow s ∈ (sweep_once fromiso env now cs).trace) :
    ∃ c ∈ cs, ∃ exp, is_workspace c.labels c.name = true ∧
      get_subdomain c.labels c.name ≠ "" ∧ get_expiry fromiso c.labels = some exp ∧
      delta_min exp now ≤ 0 ∧ s = get_subdomain c.labels c.name := by
  induction cs with
  | nil => simp [sweep_once] at h
  | cons c cs ih =>
    have hsplit : Effect.deleteRow s ∈ (processContainer fromiso env now c).effects ∨
        Effect.deleteRow s ∈ (sweep_once fromiso env now cs).trace := by
      simpa [sweep_once] using h
    rcases hsplit with h1 | h2
    · rcases processContainer_cases fromiso env now c with ⟨b, hp⟩ |
        ⟨exp, hw, hs, he, hd, hp⟩ | ⟨exp, em, hw, hs, he, h0, h10, hdb, hp⟩
      · rw [hp] at h1; simp at h1
      · rw [hp] at h1
        exact ⟨c, List.mem_cons_self c cs, exp, hw, hs, he, hd,
          stop_and_wipe_deleteRow_mem env c s h1⟩
      · rw [hp] at h1
        exact absurd h1 (backup_effects_no_deleteRow env (get_subdomain c.labels c.name) em exp s)
    · obtain ⟨c', hc', rest⟩ := ih h2
      exact ⟨c', List.mem_cons_of_mem c hc', rest⟩

/-! ### Claims -/

/-- Claim C1 counterexample: a container owned via the explicit flag but
named bare `"n8n_"` derives an empty subdomain and hits the `if not sub:
continue` guard before the expiry check, so `sweep_once` does *not* tear
it down despite its expiry lying in the past — the claim's universal
quantification over workspace-owned containers fails there. -/
theorem c1_expiry_priority_counterexample :
    is_workspace fixPathological.labels fixPathological.name = true ∧
    get_expiry fixFromiso fixPathological.labels = some fixExp ∧
    toEpochMicro fixExp - toEpochMicro fixNowExpired ≤ 0 ∧
    processContainer fixFromiso fixEnvOkBackup fixNowExpired fixPathological =
      ⟨false, false, []⟩ ∧
    (sweep_once fixFromiso fixEnvOkBackup fixNowExpired [fixPathological]).trace = [] ∧
    (sweep_once fixFromiso fixEnvOkBackup fixNowExpired [fixPathological]).expired = 0 := by
  refine ⟨by decide, by decide, by decide, by decide, by decide, by decide⟩

/-- Claim C1 (amended): for every workspace-owned container *with a
nonempty derived subdomain* (the spec's data-model invariant) whose expiry
satisfies `expires_at - now <= 0` at sweep time, `sweep_once` tears it down
— the loop body dispatches exactly the teardown trace, which attempts the
container removal, the volume wipe and the registry-row deletion — and
sends no backup notification and no `mark_backup_sent`, regardless of the
registry state (`env`, and with it `backup_sent_at`, is arbitrary): expiry
takes absolute priority over the backup window. -/
theorem c1_expiry_priority (fromiso : String → Option PyDatetime) (env : Env)
    (now : PyDatetime) (c : Container) (exp : PyDatetime)
    (hw : is_workspace c.labels c.name = true)
    (hs : get_subdomain c.labels c.name ≠ "")
    (he : get_expiry fromiso c.labels = some exp)
    (hx : toEpochMicro exp - toEpochMicro now ≤ 0) :
    processContainer fromiso env now c = ⟨true, true, stop_and_wipe env c⟩ ∧
    Effect.removeContainer c.name ∈ stop_and_wipe env c ∧
    Effect.volumeLookup (volume_name_for (get_subdomain c.labels c.name)) ∈ stop_and_wipe env c ∧
    Effect.deleteRow (get_subdomain c.labels c.name) ∈ stop_and_wipe env c ∧
    countEff isWebhookPostE (processContainer fromiso env now c).effects = 0 ∧
    countEff isMarkBackupSentE (processContainer fromiso env now c).effects = 0 ∧
    ∀ pre post : List Container,
      (sweep_once fromiso env now (pre ++ c :: post)).trace =
        (sweep_once fromiso env now pre).trace ++ stop_and_wipe env c ++
          (sweep_once fromiso env now post).trace := by
  have hdm : delta_min exp now ≤ 0 := (delta_min_nonpos_iff exp now).mpr hx
  have hp := processContainer_expired fromiso env now c exp hw hs he hdm
  refine ⟨hp, ?_, ?_, ?_, ?_, ?_, ?_⟩
  · unfold stop_and_wipe
    by_cases hv : env.volumeGetOk (volume_name_for (get_subdomain c.labels c.name)) <;> simp [hv]
  · unfold stop_and_wipe
    by_cases hv : env.volumeGetOk (volume_name_for (get_subdomain c.labels c.name)) <;> simp [hv]
  · unfold stop_and_wipe
    by_cases hv : env.volumeGetOk (volume_name_for (get_subdomain c.labels c.name)) <;> simp [hv]
  · rw [hp]; exact (stop_and_wipe_no_backup env c).1
  · rw [hp]; exact (stop_and_wipe_no_backup env c).2
  · intro pre post
    have hc : (sweep_once fromiso env now (c :: post)).trace =
        stop_and_wipe env c ++ (sweep_once fromiso env now post).trace := by
      simp [sweep_once, hp]
    rw [sweep_once_trace_append, hc, List.append_assoc]

/-- Claim C1 witness: the fixture container, expired by 20 minutes, is torn
down with no webhook call. -/
theorem c1_expiry_priority_witness :
    processContainer fixFromiso fixEnvOkBackup fixNowExpired fixContainer =
      ⟨true, true, stop_and_wipe fixEnvOkBackup fixContainer⟩ ∧
    countEff isWebhookPostE
      (processContainer fixFromiso fixEnvOkBackup fixNowExpired fixContainer).effects = 0 :=
  ⟨(c1_expiry_priority fixFromiso fixEnvOkBackup fixNowExpired fixContainer fixExp
      (by decide) (by decide) (by decide) (by decide)).1,
   (c1_expiry_priority fixFromiso fixEnvOkBackup fixNowExpired fixContainer fixExp
      (by decide) (by decide) (by decide) (by decide)).2.2.2.2.1⟩

/-- Claim C2: the teardown executor attempts the container removal once,
enters the volume-wipe step once (calling the volume removal exactly once
when the lookup succeeds, and not at all when the volume is already absent),
and deletes the registry row exactly once — the row deletion is last and
happens for every oracle outcome, so no earlier failure can suppress it;
the executor is a total function (it never raises); and across a whole
cycle, registry rows are deleted only by this teardown path for containers
that were expired at sweep time. -/
theorem c2_teardown_executor (env : Env) (c : Container) :
    countEff isRemoveContainerE (stop_and_wipe env c) = 1 ∧
    countEff isVolumeLookupE (stop_and_wipe env c) = 1 ∧
    countEff isDeleteRowE (stop_and_wipe env c) = 1 ∧
    (env.volumeGetOk (volume_name_for (get_subdomain c.labels c.name)) = true →
      countEff isRemoveVolumeE (stop_and_wipe env c) = 1) ∧
    (env.volumeGetOk (volume_name_for (get_subdomain c.labels c.name)) = false →
      countEff isRemoveVolumeE (stop_and_wipe env c) = 0) ∧
    (stop_and_wipe env c).getLast? =
      some (Effect.deleteRow (get_subdomain c.labels c.name)) ∧
    ∀ (fromiso : String → Option PyDatetime) (now : PyDatetime)
      (cs : List Container) (s : String),
      Effect.deleteRow s ∈ (sweep_once fromiso env now cs).trace →
      ∃ c' ∈ cs, ∃ exp, is_workspace c'.labels c'.name = true ∧
        get_subdomain c'.labels c'.name ≠ "" ∧ get_expiry fromiso c'.labels = some exp ∧
        delta_min exp now ≤ 0 ∧ s = get_subdomain c'.labels c'.name := by
  refine ⟨?_, ?_, ?_, ?_, ?_, ?_, ?_⟩
  · exact stop_and_wipe_count_rc env c
  · unfold stop_and_wipe countEff
    by_cases hv : env.volumeGetOk (volume_name_for (get_subdomain c.labels c.name)) <;>
      simp [hv, isVolumeLookupE]
  · unfold stop_and_wipe countEff
    by_cases hv : env.volumeGetOk (volume_name_for (get_subdomain c.labels c.name)) <;>
      simp [hv, isDeleteRowE]
  · intro hv
    unfold stop_and_wipe countEff
    simp [hv, isRemoveVolumeE]
  · intro hv
    unfold stop_and_wipe countEff
    simp [hv, isRemoveVolumeE]
  · unfold stop_and_wipe
    by_cases hv : env.volumeGetOk (volume_name_for (get_subdomain c.labels c.name)) <;>
      simp [hv]
  · intro fromiso now cs s h
    exact sweep_deleteRow_origin fromiso env now cs s h

/-- Claim C2 witness: in the fixture world the volume lookup succeeds, so
the volume removal is attempted exactly once alongside the single container
removal and single row deletion. -/
theorem c2_teardown_executor_witness :
    countEff isRemoveContainerE (stop_and_wipe fixEnvOkBackup fixContainer) = 1 ∧
    countEff isDeleteRowE (stop_and_wipe fixEnvOkBackup fixContainer) = 1 ∧
    countEff isRemoveVolumeE (stop_and_wipe fixEnvOkBackup fixContainer) = 1 :=
  ⟨(c2_teardown_executor fixEnvOkBackup fixContainer).1,
   (c2_teardown_executor fixEnvOkBackup fixContainer).2.2.1,
   (c2_teardown_executor fixEnvOkBackup fixContainer).2.2.2.1 (by decide)⟩

/-- Claim C3: for a workspace in the backup window (`0 < expires_at - now
<= 10 min`) whose registry row has a null `backup_sent_at`, a sweep whose
webhook call succeeds makes exactly one webhook call and records
`mark_backup_sent`; a second sweep, still before expiry but with
`backup_sent_at` now set, makes no webhook call and no further mark, so the
two sweeps together make exactly one call.  Moreover (for this container,
in any world): the webhook is invoked only while the row's
`backup_sent_at` is null, and `mark_backup_sent` is recorded only after a
successful webhook call. -/
theorem c3_backup_idempotence (fromiso : String → Option PyDatetime)
    (env1 env2 : Env) (now1 now2 : PyDatetime) (c : Container)
    (exp t : PyDatetime) (email email2 : String)
    (hw : is_workspace c.labels c.name = true)
    (hs : get_subdomain c.labels c.name ≠ "")
    (he : get_expiry fromiso c.labels = some exp)
    (hwin1a : 0 < toEpochMicro exp - toEpochMicro now1)
    (hwin1b : toEpochMicro exp - toEpochMicro now1 ≤ 600000000)
    (hwin2a : 0 < toEpochMicro exp - toEpochMicro now2)
    (hwin2b : toEpochMicro exp - toEpochMicro now2 ≤ 600000000)
    (hdb1 : env1.db (get_subdomain c.labels c.name) = some ⟨email, none⟩)
    (hok : (trigger_backup env1 (get_subdomain c.labels c.name) email exp).fst = true)
    (hdb2 : env2.db (get_subdomain c.labels c.name) = some ⟨email2, some t⟩) :
    countEff isWebhookPostE (processContainer fromiso env1 now1 c).effects = 1 ∧
    Effect.markBackupSent (get_subdomain c.labels c.name) ∈
      (processContainer fromiso env1 now1 c).effects ∧
    (processContainer fromiso env2 now2 c).effects = [] ∧
    countEff isWebhookPostE ((processContainer fromiso env1 now1 c).effects ++
      (processContainer fromiso env2 now2 c).effects) = 1 ∧
    (∀ (env : Env) (now : PyDatetime) (p : List (String × String)),
       Effect.webhookPost p ∈ (processContainer fromiso env now c).effects →
       ∃ em, env.db (get_subdomain c.labels c.name) = some ⟨em, none⟩) ∧
    (∀ (env : Env) (now : PyDatetime) (s : String),
       Effect.markBackupSent s ∈ (processContainer fromiso env now c).effects →
       s = get_subdomain c.labels c.name ∧
       ∃ em, env.db (get_subdomain c.labels c.name) = some ⟨em, none⟩ ∧
         (trigger_backup env (get_subdomain c.labels c.name) em exp).fst = true) := by
  have h01 : ¬ delta_min exp now1 ≤ 0 := by
    rw [delta_min_nonpos_iff]; omega
  have h101 : delta_min exp now1 ≤ 10 := (delta_min_le_ten_iff exp now1).mpr hwin1b
  have h02 : ¬ delta_min exp now2 ≤ 0 := by
    rw [delta_min_nonpos_iff]; omega
  have h102 : delta_min exp now2 ≤ 10 := (delta_min_le_ten_iff exp now2).mpr hwin2b
  have hp1 := processContainer_window_null fromiso env1 now1 c exp email hw hs he h01 h101 hdb1
  have hp2 := processContainer_window_sent fromiso env2 now2 c exp t ⟨email2, some t⟩
    hw hs he h02 h102 hdb2 rfl
  have hsnd := trigger_backup_fst_true env1 (get_subdomain c.labels c.name) email exp hok
  have heff1 : (processContainer fromiso env1 now1 c).effects =
      [Effect.webhookPost (backupPayload (get_subdomain c.labels c.name) email exp),
       Effect.markBackupSent (get_subdomain c.labels c.name)] := by
    rw [hp1]
    show (trigger_backup env1 (get_subdomain c.labels c.name) email exp).snd ++ _ = _
    rw [hsnd, if_pos hok]
    rfl
  refine ⟨?_, ?_, ?_, ?_, ?_, ?_⟩
  · rw [heff1]; simp [countEff, isWebhookPostE, isMarkBackupSentE]
  · rw [heff1]; simp
  · rw [hp2]
  · rw [heff1, hp2]; simp [countEff, isWebhookPostE, isMarkBackupSentE]
  · intro env now p hmem
    rcases processContainer_cases fromiso env now c with ⟨b, hp⟩ |
      ⟨exp', hw', hs', he', hd', hp⟩ | ⟨exp', em, hw', hs', he', h0', h10', hdb', hp⟩
    · rw [hp] at hmem; simp at hmem
    · rw [hp] at hmem
      exact absurd hmem (stop_and_wipe_no_webhook_mem env c p)
    · exact ⟨em, hdb'⟩
  · intro env now s hmem
    rcases processContainer_cases fromiso env now c with ⟨b, hp⟩ |
      ⟨exp', hw', hs', he', hd', hp⟩ | ⟨exp', em, hw', hs', he', h0', h10', hdb', hp⟩
    · rw [hp] at hmem; simp at hmem
    · rw [hp] at hmem
      exact absurd hmem (stop_and_wipe_no_mark_mem env c s)
    · rw [hp] at hmem
      have hexp : exp' = exp := by
        rw [he] at he'; exact (Option.some.injEq _ _).mp he'.symm
      obtain ⟨hsub, hfst⟩ := backup_effects_mark_mem env
        (get_subdomain c.labels c.name) em exp' s hmem
      exact ⟨hsub, em, hdb', by rw [← hexp]; exact hfst⟩

/-- Claim C3 witness: the fixture workspace, 5 minutes before expiry, gets
exactly one webhook call and is marked; the second sweep (with
`backup_sent_at` set) contributes no effects, for one call in total. -/
theorem c3_backup_idempotence_witness :
    countEff isWebhookPostE
      (processContainer fixFromiso fixEnvOkBackup fixNowWindow fixContainer).effects = 1 ∧
    (processContainer fixFromiso fixEnvSent fixNowWindow fixContainer).effects = [] ∧
    countEff isWebhookPostE
      ((processContainer fixFromiso fixEnvOkBackup fixNowWindow fixContainer).effects ++
       (processContainer fixFromiso fixEnvSent fixNowWindow fixContainer).effects) = 1 :=
  ⟨(c3_backup_idempotence fixFromiso fixEnvOkBackup fixEnvSent fixNowWindow fixNowWindow
      fixContainer fixExp ⟨2025, 1, 1, 0, 5, 0, 123⟩ "user@example.com" "user@example.com"
      (by decide) (by decide) (by decide) (by decide) (by decide) (by decide) (by decide)
      (by decide) (by decide) (by decide)).1,
   (c3_backup_idempotence fixFromiso fixEnvOkBackup fixEnvSent fixNowWindow fixNowWindow
      fixContainer fixExp ⟨2025, 1, 1, 0, 5, 0, 123⟩ "user@example.com" "user@example.com"
      (by decide) (by decide) (by decide) (by decide) (by decide) (by decide) (by decide)
      (by decide) (by decide) (by decide)).2.2.1,
   (c3_backup_idempotence fixFromiso fixEnvOkBackup fixEnvSent fixNowWindow fixNowWindow
      fixContainer fixExp ⟨2025, 1, 1, 0, 5, 0, 123⟩ "user@example.com" "user@example.com"
      (by decide) (by decide) (by decide) (by decide) (by decide) (by decide) (by decide)
      (by decide) (by decide) (by decide)).2.2.2.1⟩

/-- Claim C8 counterexample: a flag-owned container named bare `"n8n_"`
with no expiry label fails the `if not sub: continue` guard, so it is
counted in `total` but *not* in `with_sub`, contradicting the claim's
"counted in total and with_sub" for arbitrary workspace-owned
containers. -/
theorem c8_no_expiry_counters_counterexample :
    is_workspace fixPathNoExpiry.labels fixPathNoExpiry.name = true ∧
    get_expiry fixFromiso fixPathNoExpiry.labels = none ∧
    (sweep_once fixFromiso fixEnvOkBackup fixNowWindow [fixPathNoExpiry]).total = 1 ∧
    (sweep_once fixFromiso fixEnvOkBackup fixNowWindow [fixPathNoExpiry]).withSub = 0 := by
  refine ⟨by decide, by decide, by decide, by decide⟩

/-- Claim C8 (amended): a workspace-owned container *with a nonempty
derived subdomain* and no resolvable expiry is
skipped with no side effect while still contributing to `with_sub` (and,
like every listed container, to `total`) but not to `expired`; wherever it
sits in the inventory, the cycle counts it in `total` (= the inventory
length) and `with_sub` but adds nothing to `expired`; and the `expired`
counter equals exactly the number of container teardowns attempted that
cycle. -/
theorem c8_no_expiry_counters (fromiso : String → Option PyDatetime) (env : Env)
    (now : PyDatetime) (c : Container)
    (hw : is_workspace c.labels c.name = true)
    (hs : get_subdomain c.labels c.name ≠ "")
    (he : get_expiry fromiso c.labels = none) :
    processContainer fromiso env now c = ⟨true, false, []⟩ ∧
    (∀ cs : List Container, (sweep_once fromiso env now cs).total = cs.length) ∧
    (∀ cs : List Container, (sweep_once fromiso env now cs).expired =
       countEff isRemoveContainerE (sweep_once fromiso env now cs).trace) ∧
    (∀ pre post : List Container,
       (sweep_once fromiso env now (pre ++ c :: post)).withSub =
         (sweep_once fromiso env now pre).withSub + 1 +
           (sweep_once fromiso env now post).withSub ∧
       (sweep_once fromiso env now (pre ++ c :: post)).expired =
         (sweep_once fromiso env now pre).expired +
           (sweep_once fromiso env now post).expired ∧
       (sweep_once fromiso env now (pre ++ c :: post)).trace =
         (sweep_once fromiso env now pre).trace ++
           (sweep_once fromiso env now post).trace) := by
  have hp := processContainer_no_expiry fromiso env now c hw hs he
  refine ⟨hp, sweep_once_total fromiso env now,
    sweep_once_expired_eq_count fromiso env now, ?_⟩
  intro pre post
  have hws : (sweep_once fromiso env now (c :: post)).withSub =
      1 + (sweep_once fromiso env now post).withSub := by
    simp [sweep_once, hp]
  have hex : (sweep_once fromiso env now (c :: post)).expired =
      (sweep_once fromiso env now post).expired := by
    simp [sweep_once, hp]
  have htr : (sweep_once fromiso env now (c :: post)).trace =
      (sweep_once fromiso env now post).trace := by
    simp [sweep_once, hp]
  refine ⟨?_, ?_, ?_⟩
  · rw [sweep_once_withSub_append, hws]; omega
  · rw [sweep_once_expired_append, hex]
  · show _ = (sweep_once fromiso env now pre).trace ++ (sweep_once fromiso env now post).trace
    rw [sweep_once_trace_append, htr]

/-- Claim C8 witness: a workspace container named `n8n_u-abc123` carrying
no expiry label is skipped, counted in `with_sub` but adding nothing to
`expired`. -/
theorem c8_no_expiry_counters_witness :
    processContainer fixFromiso fixEnvOkBackup fixNowWindow
      ⟨"n8n_u-abc123", []⟩ = ⟨true, false, []⟩ ∧
    (sweep_once fixFromiso fixEnvOkBackup fixNowWindow
      ([] ++ (⟨"n8n_u-abc123", []⟩ : Container) :: [])).withSub =
      (sweep_once fixFromiso fixEnvOkBackup fixNowWindow []).withSub + 1 +
        (sweep_once fixFromiso fixEnvOkBackup fixNowWindow []).withSub :=
  ⟨(c8_no_expiry_counters fixFromiso fixEnvOkBackup fixNowWindow ⟨"n8n_u-abc123", []⟩
      (by decide) (by decide) (by decide)).1,
   ((c8_no_expiry_counters fixFromiso fixEnvOkBackup fixNowWindow ⟨"n8n_u-abc123", []⟩
      (by decide) (by decide) (by decide)).2.2.2 [] []).1⟩

/-- Claim C9: a workspace-owned container inside the backup window whose
registry lookup reports no row (which is also how a failed lookup is
reported) is left entirely alone that cycle — no webhook call, no
`mark_backup_sent`, no teardown: the loop body contributes no effects, and
the cycle trace around it is unchanged. -/
theorem c9_window_no_row (fromiso : String → Option PyDatetime) (env : Env)
    (now : PyDatetime) (c : Container) (exp : PyDatetime)
    (hw : is_workspace c.labels c.name = true)
    (hs : get_subdomain c.labels c.name ≠ "")
    (he : get_expiry fromiso c.labels = some exp)
    (hwina : 0 < toEpochMicro exp - toEpochMicro now)
    (hwinb : toEpochMicro exp - toEpochMicro now ≤ 600000000)
    (hdb : env.db (get_subdomain c.labels c.name) = none) :
    processContainer fromiso env now c = ⟨true, false, []⟩ ∧
    ∀ pre post : List Container,
      (sweep_once fromiso env now (pre ++ c :: post)).trace =
        (sweep_once fromiso env now pre).trace ++
          (sweep_once fromiso env now post).trace := by
  have h0 : ¬ delta_min exp now ≤ 0 := by
    rw [delta_min_nonpos_iff]; omega
  have h10 : delta_min exp now ≤ 10 := (delta_min_le_ten_iff exp now).mpr hwinb
  have hp := processContainer_window_no_row fromiso env now c exp hw hs he h0 h10 hdb
  refine ⟨hp, ?_⟩
  intro pre post
  have htr : (sweep_once fromiso env now (c :: post)).trace =
      (sweep_once fromiso env now post).trace := by
    simp [sweep_once, hp]
  rw [sweep_once_trace_append, htr]

/-- Claim C9 witness: the fixture container in the backup window with no
registry row contributes no effects. -/
theorem c9_window_no_row_witness :
    processContainer fixFromiso fixEnvNoRow fixNowWindow fixContainer =
      ⟨true, false, []⟩ ∧
    (sweep_once fixFromiso fixEnvNoRow fixNowWindow ([] ++ fixContainer :: [])).trace =
      (sweep_once fixFromiso fixEnvNoRow fixNowWindow []).trace ++
        (sweep_once fixFromiso fixEnvNoRow fixNowWindow []).trace :=
  ⟨(c9_window_no_row fixFromiso fixEnvNoRow fixNowWindow fixContainer fixExp
      (by decide) (by decide) (by decide) (by decide) (by decide) (by decide)).1,
   (c9_window_no_row fixFromiso fixEnvNoRow fixNowWindow fixContainer fixExp
      (by decide) (by decide) (by decide) (by decide) (by decide) (by decide)).2 [] []⟩

/-- Inversion of the success test on the decoded body: it holds exactly for
a dict whose `"ok"` field is the boolean `True`. -/
lemma okField_eq_true_iff (o : Option PyVal) :
    okField o = true ↔ o = some (PyVal.pbool true) := by
  cases o with
  | none => simp [okField]
  | some v =>
    cases v with
    | pbool bb => cases bb <;> simp [okField]
    | pnull => simp [okField]
    | pint n => simp [okField]
    | pstr t => simp [okField]
    | plist l => simp [okField]
    | pdict l => simp [okField]

/-- Inversion of the success test on the decoded body: it holds exactly for
a dict whose `"ok"` field is the boolean `True`. -/
lemma okIsTrue_eq_true_iff (b : Option PyVal) :
    okIsTrue b = true ↔
      ∃ xs, b = some (PyVal.pdict xs) ∧ dictGet xs "ok" = some (PyVal.pbool true) := by
  cases b with
  | none => simp [okIsTrue]
  | some v =>
    cases v with
    | pdict xs => simp [okIsTrue, okField_eq_true_iff]
    | pnull => simp [okIsTrue]
    | pbool bb => simp [okIsTrue]
    | pint n => simp [okIsTrue]
    | pstr t => simp [okIsTrue]
    | plist l => simp [okIsTrue]

/-- Claim C4: `trigger_backup` returns `True` exactly when the endpoint is
configured (non-empty URL) and the webhook response has HTTP status 200
with a decoded JSON dict whose `"ok"` field is exactly the boolean `True`;
every other outcome — non-200 status, non-JSON body, missing or non-`True`
`"ok"`, a raised network error or timeout, or an unconfigured endpoint —
yields `False`.  The model is a total function: the `except` clauses leave
no path on which an exception escapes to the caller. -/
theorem c4_trigger_backup_success_iff (env : Env) (sub email : String) (exp : PyDatetime) :
    (trigger_backup env sub email exp).fst = true ↔
      (pyTruthyStr env.url ≠ none ∧
       ∃ xs, env.http (backupPayload sub email exp) =
           HttpOutcome.resp 200 (some (PyVal.pdict xs)) ∧
         dictGet xs "ok" = some (PyVal.pbool true)) := by
  unfold trigger_backup
  cases hu : pyTruthyStr env.url with
  | none => simp
  | some u =>
    cases hh : env.http (backupPayload sub email exp) with
    | exc => simp
    | resp status body =>
      change (decide (status = 200) && okIsTrue body) = true ↔ _
      rw [Bool.and_eq_true, decide_eq_true_eq, okIsTrue_eq_true_iff]
      constructor
      · rintro ⟨hstat, xs, hb, hget⟩
        exact ⟨by simp, xs, by rw [hstat, hb], hget⟩
      · rintro ⟨-, xs, hr, hget⟩
        have hinj : status = 200 ∧ body = some (PyVal.pdict xs) := by
          constructor <;> injection hr
        exact ⟨hinj.1, xs, hinj.2, hget⟩

/-- Claim C4 witness: in the fixture world (configured URL, `200
{"ok": true}` response) the call succeeds. -/
theorem c4_trigger_backup_success_iff_witness :
    (trigger_backup fixEnvOkBackup "u-abc123" "user@example.com" fixExp).fst = true :=
  (c4_trigger_backup_success_iff fixEnvOkBackup "u-abc123" "user@example.com" fixExp).mpr
    ⟨by decide, [("ok", PyVal.pbool true)], rfl, rfl⟩

/-- Claim C5: `parse_iso` parses a timestamp with a trailing `Z` to the
same instant as without it (for any nonempty string, hence in particular
for every valid ISO-8601 timestamp); the empty string yields `None`; any
string the underlying `datetime.fromisoformat` rejects yields `None`; and
the model is a total function — the `except` clause leaves no path on which
an exception escapes. -/
theorem c5_parse_iso_strips_Z (fromiso : String → Option PyDatetime) (s : String) :
    (s ≠ "" → parse_iso fromiso (s ++ "Z") = parse_iso fromiso s) ∧
    parse_iso fromiso "" = none ∧
    (s ≠ "" → fromiso (rstripZ s) = none → parse_iso fromiso s = none) := by
  refine ⟨?_, rfl, ?_⟩
  · intro hs
    unfold parse_iso
    rw [if_neg (append_Z_ne_empty s), if_neg hs, rstripZ_append_Z]
  · intro hs hf
    unfold parse_iso
    rw [if_neg hs, hf]

/-- Claim C5 witness: the fixture timestamp parses identically with and
without the trailing `Z`, and a non-ISO string yields `None`. -/
theorem c5_parse_iso_strips_Z_witness :
    parse_iso fixFromiso ("2025-01-01T00:10:00" ++ "Z") =
      parse_iso fixFromiso "2025-01-01T00:10:00" ∧
    parse_iso fixFromiso "not-a-timestamp" = none :=
  ⟨(c5_parse_iso_strips_Z fixFromiso "2025-01-01T00:10:00").1 (by decide),
   (c5_parse_iso_strips_Z fixFromiso "not-a-timestamp").2.2 (by decide) (by decide)⟩

/-- Claim C10: a nonempty container name that does not start with `"n8n_"`
is returned unchanged by the name-based subdomain fallback; hence with no
subdomain label present the derived subdomain is the (nonempty) name itself
and the derived volume name is `"n8n_" ++ name ++ "_data"`. -/
theorem c10_subdomain_fallback (labels : List (String × String)) (name : String)
    (h1 : name ≠ "")
    (h2 : pyStartsWith name "n8n_" = false)
    (h3 : pyGet labels "xcommand.subdomain" = none)
    (h4 : pyGet labels "com.xcommand.sub" = none) :
    sub_from_container name = name ∧
    get_subdomain labels name = name ∧
    get_subdomain labels name ≠ "" ∧
    volume_name_for (get_subdomain labels name) = "n8n_" ++ name ++ "_data" := by
  have hsub : sub_from_container name = name := by
    unfold sub_from_container
    rw [h2]
    simp
  have hget : get_subdomain labels name = name := by
    unfold get_subdomain
    rw [h3, h4]
    simpa [pyOrS] using hsub
  refine ⟨hsub, hget, ?_, ?_⟩
  · rw [hget]; exact h1
  · rw [hget]; rfl

/-- Claim C10 witness: the name `legacy-box` with label-free metadata. -/
theorem c10_subdomain_fallback_witness :
    get_subdomain [] "legacy-box" = "legacy-box" ∧
    volume_name_for (get_subdomain [] "legacy-box") = "n8n_" ++ "legacy-box" ++ "_data" :=
  ⟨(c10_subdomain_fallback [] "legacy-box"
      (by decide) (by decide) (by decide) (by decide)).2.1,
   (c10_subdomain_fallback [] "legacy-box"
      (by decide) (by decide) (by decide) (by decide)).2.2.2⟩

/-! ### Formatting lemmas (for the webhook payload claims) -/

/-- Digit characters are never `'+'`. -/
lemma digitChar_ne_plus (k : Nat) : digitChar k ≠ '+' := by
  unfold digitChar
  have h : k % 10 < 10 := Nat.mod_lt _ (by norm_num)
  revert h
  generalize k % 10 = m
  intro h
  interval_cases m <;> decide

/-- Digit characters are never `'.'`. -/
lemma digitChar_ne_dot (k : Nat) : digitChar k ≠ '.' := by
  unfold digitChar
  have h : k % 10 < 10 := Nat.mod_lt _ (by norm_num)
  revert h
  generalize k % 10 = m
  intro h
  interval_cases m <;> decide

/-- The rendered digits of a number contain no `'+'`. -/
lemma natDigitsAux_no_plus (fuel : Nat) : ∀ n, '+' ∉ natDigitsAux fuel n := by
  induction fuel with
  | zero => intro n h; simp [natDigitsAux] at h
  | succ f ih =>
    intro n h
    unfold natDigitsAux at h
    by_cases hlt : n < 10
    · rw [if_pos hlt] at h
      simp at h
      exact digitChar_ne_plus n h.symm
    · rw [if_neg hlt] at h
      rcases List.mem_append.mp h with h1 | h1
      · exact ih (n / 10) h1
      · simp at h1
        exact digitChar_ne_plus (n % 10) h1.symm

/-- The rendered digits of a number contain no `'.'`. -/
lemma natDigitsAux_no_dot (fuel : Nat) : ∀ n, '.' ∉ natDigitsAux fuel n := by
  induction fuel with
  | zero => intro n h; simp [natDigitsAux] at h
  | succ f ih =>
    intro n h
    unfold natDigitsAux at h
    by_cases hlt : n < 10
    · rw [if_pos hlt] at h
      simp at h
      exact digitChar_ne_dot n h.symm
    · rw [if_neg hlt] at h
      rcases List.mem_append.mp h with h1 | h1
      · exact ih (n / 10) h1
      · simp at h1
        exact digitChar_ne_dot (n % 10) h1.symm

/-- A zero-padded number contains no `'+'`. -/
lemma padZero_no_plus (w n : Nat) : '+' ∉ (padZero w n).data := by
  intro h
  unfold padZero at h
  rcases List.mem_append.mp h with h1 | h1
  · have := List.eq_of_mem_replicate h1
    exact absurd this (by decide)
  · exact natDigitsAux_no_plus (n + 1) n h1

/-- A zero-padded number contains no `'.'`. -/
lemma padZero_no_dot (w n : Nat) : '.' ∉ (padZero w n).data := by
  intro h
  unfold padZero at h
  rcases List.mem_append.mp h with h1 | h1
  · have := List.eq_of_mem_replicate h1
    exact absurd this (by decide)
  · exact natDigitsAux_no_dot (n + 1) n h1

/-- The date-time part of the isoformat rendering contains no `'+'`. -/
lemma isoCoreChars_no_plus (d : PyDatetime) : '+' ∉ isoCoreChars d := by
  intro h
  unfold isoCoreChars at h
  by_cases hm : d.microsecond = 0 <;>
    simp only [hm, if_pos, if_neg, ite_true, ite_false, List.append_nil,
      List.mem_append, List.mem_singleton, List.mem_cons, List.not_mem_nil,
      or_false] at h <;>
    casesm* _ ∨ _ <;> rename_i h1 <;>
    first
      | exact padZero_no_plus _ _ h1
      | exact absurd h1 (by decide)

/-- When the microsecond field is zero, the date-time part contains no
`'.'`. -/
lemma isoCoreChars_no_dot (d : PyDatetime) (hm : d.microsecond = 0) :
    '.' ∉ isoCoreChars d := by
  intro h
  unfold isoCoreChars at h
  simp only [hm, ite_true, List.append_nil, List.mem_append, List.mem_singleton,
    List.not_mem_nil, or_false] at h
  casesm* _ ∨ _ <;> rename_i h1 <;>
    first
      | exact padZero_no_dot _ _ h1
      | exact absurd h1 (by decide)

/-- Characters of an appended string. -/
lemma string_data_append (a b : String) : (a ++ b).data = a.data ++ b.data := by
  cases a with
  | mk la =>
    cases b with
    | mk lb => rfl

/-- `pyReplaceAux` on the empty list. -/
lemma pyReplaceAux_nil (fuel : Nat) (old new : List Char) :
    pyReplaceAux fuel [] old new = [] := by
  cases fuel <;> rfl

/-- Replacing `"+00:00"` in a string that reaches it only as its suffix
rewrites exactly that suffix. -/
lemma pyReplaceAux_boundary (new : List Char) :
    ∀ (base : List Char) (fuel : Nat), base.length + 1 ≤ fuel →
      '+' ∉ base →
      pyReplaceAux fuel (base ++ "+00:00".data) "+00:00".data new = base ++ new := by
  intro base
  induction base with
  | nil =>
    intro fuel hf hp
    cases fuel with
    | zero => omega
    | succ f =>
      show pyReplaceAux (f + 1) ("+00:00".data) "+00:00".data new = new
      have hcond : ("+00:00".data ≠ []) ∧ "+00:00".data.isPrefixOf "+00:00".data := by
        refine ⟨by decide, by decide⟩
      rw [show ("+00:00".data : List Char) = '+' :: "00:00".data from rfl]
      unfold pyReplaceAux
      rw [if_pos (by exact_mod_cast hcond)]
      have hdrop : List.drop ('+' :: "00:00".data).length ('+' :: "00:00".data) = [] := by
        decide
      rw [hdrop, pyReplaceAux_nil, List.append_nil]
  | cons ch base ih =>
    intro fuel hf hp
    cases fuel with
    | zero => omega
    | succ f =>
      have hch : ch ≠ '+' := fun hcontra => hp (by rw [← hcontra]; exact List.mem_cons_self ch base)
      have hpre : ("+00:00".data.isPrefixOf (ch :: (base ++ "+00:00".data))) = false := by
        rw [show ("+00:00".data : List Char) = '+' :: "00:00".data from rfl]
        simp [List.isPrefixOf]
        intro hcontra
        exact absurd hcontra.symm hch
      show pyReplaceAux (f + 1) (ch :: (base ++ "+00:00".data)) "+00:00".data new =
        ch :: (base ++ new)
      unfold pyReplaceAux
      rw [if_neg (by rw [hpre]; simp)]
      have hrest := ih f (by simpa using Nat.succ_le_succ_iff.mp hf)
        (fun hcontra => hp (List.mem_cons_of_mem ch hcontra))
      rw [hrest]

/-- `exp.isoformat().replace("+00:00", "Z")` rewrites exactly the UTC
offset suffix into a `Z`. -/
lemma pyReplace_isoformat (d : PyDatetime) :
    pyReplace (pyIsoformatAware d) "+00:00" "Z" = specExpiresAtString d := by
  unfold pyReplace pyIsoformatAware specExpiresAtString
  have hdata : (isoCore d ++ "+00:00").data = isoCoreChars d ++ "+00:00".data := by
    rw [string_data_append]; rfl
  rw [hdata]
  rw [pyReplaceAux_boundary "Z".data (isoCoreChars d)
    ((isoCoreChars d ++ "+00:00".data).length)
    (by rw [List.length_append]
        have h6 : ("+00:00".data).length = 6 := rfl
        omega)
    (isoCoreChars_no_plus d)]
  rfl

/-- Claim C6 counterexample: the claim says an explicit boolean-true
ownership label under *either* key suffices, but when the new key holds a
truthy non-`"true"` value the code never consults the old key: with
`xcommand.workspace = "false"` and `com.xcommand.workspace = "true"` on a
container not matching the name pattern, the claimed signal holds yet
`is_workspace` returns `false`. -/
theorem c6_ownership_counterexample :
    claimedWorkspaceSignal
      [("xcommand.workspace", "false"), ("com.xcommand.workspace", "true")] "legacy-box" ∧
    is_workspace
      [("xcommand.workspace", "false"), ("com.xcommand.workspace", "true")] "legacy-box"
      = false := by
  constructor
  · unfold claimedWorkspaceSignal
    refine Or.inr (Or.inl ?_)
    decide
  · decide

/-- Claim C6 (amended): `is_workspace` returns true iff the ownership flag
— read from the new key, falling back to the old key only when the new key
is absent or empty — equals the string `"true"`, or the name starts with
`"n8n_u-"`; otherwise it returns false.  The model is a total function, so
malformed label maps cannot raise. -/
theorem c6_ownership_flag_amended (labels : List (String × String)) (name : String) :
    is_workspace labels name = true ↔
      ((match pyGet labels "xcommand.workspace" with
        | none => pyGet labels "com.xcommand.workspace" = some "true"
        | some s =>
          if s = "" then pyGet labels "com.xcommand.workspace" = some "true"
          else s = "true") ∨
       pyStartsWith name "n8n_u-" = true) := by
  unfold is_workspace pyOrS
  cases hn : pyGet labels "xcommand.workspace" with
  | none =>
    by_cases ho : pyGet labels "com.xcommand.workspace" = some "true"
    · simp [ho]
    · by_cases hp : pyStartsWith name "n8n_u-" <;> simp [ho, hp]
  | some s =>
    by_cases hse : s = ""
    · subst hse
      by_cases ho : pyGet labels "com.xcommand.workspace" = some "true"
      · simp [ho]
      · by_cases hp : pyStartsWith name "n8n_u-" <;> simp [ho, hp]
    · by_cases hst : s = "true"
      · subst hst
        simp
      · have hflag : (some s = some "true") = False := by
          simp [hst]
        by_cases hp : pyStartsWith name "n8n_u-" <;> simp [hse, hst, hflag, hp]

/-- Claim C6 witness (for the amended claim): a container with only the old
ownership key set to `"true"` is recognized. -/
theorem c6_ownership_flag_amended_witness :
    is_workspace [("com.xcommand.workspace", "true")] "box" = true :=
  (c6_ownership_flag_amended [("com.xcommand.workspace", "true")] "box").mpr
    (Or.inl (by rfl))

/-- Claim C7 counterexample: for an expiry with `microsecond = 0` the
payload's `expires_at` is rendered *without* a fractional-seconds block —
`"2025-01-01T00:00:00Z"`, which contains no `'.'` and has 20 characters
rather than the 27 of the claimed fixed form `YYYY-MM-DDTHH:MM:SS.ffffffZ`
— so the claimed "every datetime" rendering is false. -/
theorem c7_payload_counterexample :
    (trigger_backup fixEnvHookOnly "u-abc123" "user@example.com"
       ⟨2025, 1, 1, 0, 0, 0, 0⟩).snd =
      [Effect.webhookPost
        [("workspace_subdomain", "u-abc123"),
         ("user_email", "user@example.com"),
         ("expires_at", "2025-01-01T00:00:00Z")]] ∧
    '.' ∉ "2025-01-01T00:00:00Z".data ∧
    "2025-01-01T00:00:00Z".data.length ≠ 27 := by
  refine ⟨by decide, by decide, by decide⟩

/-- Claim C7 (amended): whenever the endpoint is configured, the webhook
POST body contains exactly the fields `workspace_subdomain`, `user_email`,
and `expires_at`, where `expires_at` is the expiry rendered as UTC with a
trailing `Z` in the form `YYYY-MM-DDTHH:MM:SS[.ffffff]Z` — the
fractional-seconds block present exactly when the expiry's microsecond
field is nonzero. -/
theorem c7_payload_fields_amended (env : Env) (sub email : String) (d : PyDatetime)
    (hurl : pyTruthyStr env.url ≠ none) :
    (trigger_backup env sub email d).snd =
      [Effect.webhookPost
        [("workspace_subdomain", sub),
         ("user_email", email),
         ("expires_at", specExpiresAtString d)]] ∧
    (specExpiresAtString d).data = isoCoreChars d ++ ['Z'] ∧
    (d.microsecond = 0 → '.' ∉ (specExpiresAtString d).data) ∧
    (d.microsecond ≠ 0 → '.' ∈ (specExpiresAtString d).data) := by
  have hpayload : backupPayload sub email d =
      [("workspace_subdomain", sub), ("user_email", email),
       ("expires_at", specExpiresAtString d)] := by
    unfold backupPayload
    rw [pyReplace_isoformat]
  have hdataZ : (specExpiresAtString d).data = isoCoreChars d ++ ['Z'] := by
    unfold specExpiresAtString
    rw [string_data_append]
    rfl
  refine ⟨?_, hdataZ, ?_, ?_⟩
  · unfold trigger_backup
    cases hu : pyTruthyStr env.url with
    | none => exact absurd hu hurl
    | some u =>
      cases hh : env.http (backupPayload sub email d) with
      | exc => rw [hpayload]
      | resp status body => rw [hpayload]
  · intro hm h
    rw [hdataZ] at h
    rcases List.mem_append.mp h with h1 | h1
    · exact isoCoreChars_no_dot d hm h1
    · exact absurd h1 (by decide)
  · intro hm
    rw [hdataZ]
    refine List.mem_append.mpr (Or.inl ?_)
    unfold isoCoreChars
    rw [if_neg hm]
    refine List.mem_append.mpr (Or.inr ?_)
    exact List.mem_cons_self _ _

/-- Claim C7 witness (for the amended claim): a microsecond-bearing expiry
is rendered with its fractional block and trailing `Z`. -/
theorem c7_payload_fields_amended_witness :
    (trigger_backup fixEnvHookOnly "u-abc123" "user@example.com"
       ⟨2025, 7, 3, 9, 5, 7, 123456⟩).snd =
      [Effect.webhookPost
        [("workspace_subdomain", "u-abc123"),
         ("user_email", "user@example.com"),
         ("expires_at", specExpiresAtString ⟨2025, 7, 3, 9, 5, 7, 123456⟩)]] ∧
    '.' ∈ (specExpiresAtString ⟨2025, 7, 3, 9, 5, 7, 123456⟩).data :=
  ⟨(c7_payload_fields_amended fixEnvHookOnly "u-abc123" "user@example.com"
      ⟨2025, 7, 3, 9, 5, 7, 123456⟩ (by decide)).1,
   (c7_payload_fields_amended fixEnvHookOnly "u-abc123" "user@example.com"
      ⟨2025, 7, 3, 9, 5, 7, 123456⟩ (by decide)).2.2.2 (by decide)⟩

end Janitor
